import Mathlib

/-!
Shallow embedding of the persistence core of the `inventory-manager`
repository (`src/inventory_manager/repositories.py`, `db.py`, `backup.py`).

The SQLite store is modelled as an explicit `DBState`; each repository
method becomes a pure function on that state.  The clock (`iso_now`) is
modelled by passing the value it would return as a `now` parameter, and the
stream of `random.randint(1, 99999999)` draws inside the identifier
allocator is modelled by a list of candidate numbers.  Constraints enforced
by the SQLite schema (`SCHEMA_SQL` in `db.py`, with `PRAGMA foreign_keys =
ON`) are part of each write operation, since an `IntegrityError` raised by
the engine aborts the statement atomically.
-/

namespace InventoryManager

/-- One decimal digit character, as produced by Python string formatting. -/
def digitChar (d : Nat) : Char := Char.ofNat (48 + d)

/-- Models the Python f-string `f"{n:08d}"` on the range produced by
`random.randint(1, 99999999)` in `GlobalIdRepository.generate_global_id`:
the eight decimal digits of `n`, most significant first, zero padded. -/
def format08 (n : Nat) : String :=
  String.mk
    [digitChar (n / 10000000 % 10), digitChar (n / 1000000 % 10),
     digitChar (n / 100000 % 10), digitChar (n / 10000 % 10),
     digitChar (n / 1000 % 10), digitChar (n / 100 % 10),
     digitChar (n / 10 % 10), digitChar (n % 10)]

/-- `GlobalIdRepository.generate_global_id`: draw a candidate, format it,
and try to `INSERT` it into the `GlobalId` table; a primary-key conflict
raises `sqlite3.IntegrityError`, which the source rolls back and retries
with the next draw.  The first component of the result is the returned id,
the second the grown `GlobalId` table.  `none` models exhaustion of the
finite candidate stream (the source loops forever). -/
def generate_global_id (globalIds : List String) : List Nat → Option (String × List String)
  | [] => none
  | c :: cs =>
    let id_str := format08 c
    if id_str ∈ globalIds then generate_global_id globalIds cs
    else some (id_str, id_str :: globalIds)

/-- A sequence of back-to-back allocator calls, each consuming its own
stream of random draws; returns the list of issued identifiers and the
final `GlobalId` table. -/
def allocateRun (globalIds : List String) : List (List Nat) → Option (List String × List String)
  | [] => some ([], globalIds)
  | cs :: rest =>
    match generate_global_id globalIds cs with
    | none => none
    | some (i, g1) =>
      match allocateRun g1 rest with
      | none => none
      | some (is, g2) => some (i :: is, g2)

/-- Row of the `Vehicle` table / the `Vehicle` dataclass. -/
structure Vehicle where
  vehicle_id : String
  vehicle_type : String
  vehicle_name : String
  vin : String
  vehicle_number : Int
  mileage : Int
  last_service : Int
  created_at : String
  updated_at : String
  deriving DecidableEq, Repr

/-- Row of the `Location` table / the `Location` dataclass. -/
structure Location where
  location_id : String
  vehicle_id : Option String
  side : String
  row : Int
  bin : Int
  created_at : String
  updated_at : String
  last_audited_at : Option String
  deriving DecidableEq, Repr

/-- Row of the `Inventory` table / the `InventoryItem` dataclass
(`consumable` is stored as the integer 0 or 1, as in the source). -/
structure InventoryItem where
  asset_id : String
  description : String
  location_id : String
  consumable : Int
  manufacturer : Option String
  model : Option String
  serial_number : Option String
  created_at : String
  updated_at : String
  deriving DecidableEq, Repr

/-- Row of the `InventoryAudit` table. -/
structure AuditRecord where
  audit_id : Nat
  asset_id : String
  from_location_id : Option String
  to_location_id : Option String
  action : String
  notes : Option String
  audited_at : String
  user : Option String
  deriving DecidableEq, Repr

/-- The whole SQLite store: the four entity tables plus the `GlobalId`
allocation table; `nextAuditId` models the AUTOINCREMENT counter of
`InventoryAudit`. -/
structure DBState where
  globalIds : List String
  vehicles : List Vehicle
  locations : List Location
  inventory : List InventoryItem
  audits : List AuditRecord
  nextAuditId : Nat
  deriving DecidableEq, Repr

deriving instance DecidableEq for Except

/-- Error taxonomy of the spec.  The source surfaces schema-constraint
failures as `sqlite3.IntegrityError`, which the spec calls
`ConstraintViolation`; the spec additionally names `ValidationError` and
`NotFound`, which the repository layer never raises. -/
inductive DBError where
  | validationError
  | constraintViolation
  | notFound
  deriving DecidableEq, Repr

/-- The CHECK constraint on `Vehicle.vehicle_type`. -/
def checkVehicleType (t : String) : Bool := t == "Truck" || t == "Trailer"

/-- Insert `a` in front of the first element it compares no greater than. -/
def orderedIns (le : α → α → Bool) (a : α) : List α → List α
  | [] => [a]
  | b :: l => if le a b then a :: b :: l else b :: orderedIns le a l

/-- Comparison sort used to model SQL `ORDER BY` and Python `sorted`. -/
def sqlSort (le : α → α → Bool) : List α → List α
  | [] => []
  | a :: l => orderedIns le a (sqlSort le l)

/-- `VehicleRepository.create_vehicle`: stamp `now`, allocate an id, insert.
SQLite enforces the `vehicle_type` CHECK constraint and the primary key at
insert time; an `IntegrityError` leaves the `Vehicle` table unchanged,
though the `GlobalId` insert was already committed by the allocator. -/
def create_vehicle (s : DBState) (now : String) (cands : List Nat)
    (vehicle_type vehicle_name vin : String)
    (vehicle_number mileage last_service : Int) :
    Option (Except DBError Vehicle × DBState) :=
  match generate_global_id s.globalIds cands with
  | none => none
  | some (vehicle_id, g1) =>
    let v : Vehicle :=
      { vehicle_id := vehicle_id, vehicle_type := vehicle_type,
        vehicle_name := vehicle_name, vin := vin,
        vehicle_number := vehicle_number, mileage := mileage,
        last_service := last_service, created_at := now, updated_at := now }
    if checkVehicleType vehicle_type && s.vehicles.all (fun w => w.vehicle_id != vehicle_id) then
      some (Except.ok v, { s with globalIds := g1, vehicles := s.vehicles ++ [v] })
    else
      some (Except.error DBError.constraintViolation, { s with globalIds := g1 })

/-- SQLite UNIQUE semantics for `(vehicle_id, side, row, bin)`: two rows
conflict only when both have the same non-NULL `vehicle_id` (NULLs are
pairwise distinct for UNIQUE constraints). -/
def locTupleConflict (a b : Location) : Bool :=
  match a.vehicle_id, b.vehicle_id with
  | some v, some w =>
    v == w && a.side == b.side && a.row == b.row && a.bin == b.bin
  | _, _ => false

/-- `LocationRepository.create_location`: stamp `now`, allocate an id,
insert with `last_audited_at = NULL`.  SQLite enforces the primary key, the
foreign key to `Vehicle`, and the UNIQUE tuple constraint. -/
def create_location (s : DBState) (now : String) (cands : List Nat)
    (side : String) (row bin : Int) (vehicle_id : Option String) :
    Option (Except DBError Location × DBState) :=
  match generate_global_id s.globalIds cands with
  | none => none
  | some (location_id, g1) =>
    let fkOk : Bool :=
      match vehicle_id with
      | none => true
      | some v => s.vehicles.any (fun w => w.vehicle_id == v)
    let l : Location :=
      { location_id := location_id, vehicle_id := vehicle_id,
        side := side, row := row, bin := bin,
        created_at := now, updated_at := now, last_audited_at := none }
    if fkOk && s.locations.all (fun m => !locTupleConflict m l)
        && s.locations.all (fun m => m.location_id != location_id) then
      some (Except.ok l, { s with globalIds := g1, locations := s.locations ++ [l] })
    else
      some (Except.error DBError.constraintViolation, { s with globalIds := g1 })

/-- `InventoryRepository.create_inventory`: stamp `now`, allocate an id,
insert (`consumable` coerced to 0/1).  SQLite enforces the primary key and
the foreign key to `Location`. -/
def create_inventory (s : DBState) (now : String) (cands : List Nat)
    (description location_id : String) (consumable : Bool)
    (manufacturer model serial_number : Option String) :
    Option (Except DBError InventoryItem × DBState) :=
  match generate_global_id s.globalIds cands with
  | none => none
  | some (asset_id, g1) =>
    let item : InventoryItem :=
      { asset_id := asset_id, description := description,
        location_id := location_id,
        consumable := if consumable then 1 else 0,
        manufacturer := manufacturer, model := model,
        serial_number := serial_number,
        created_at := now, updated_at := now }
    if s.locations.any (fun l => l.location_id == location_id)
        && s.inventory.all (fun it => it.asset_id != asset_id) then
      some (Except.ok item, { s with globalIds := g1, inventory := s.inventory ++ [item] })
    else
      some (Except.error DBError.constraintViolation, { s with globalIds := g1 })

/-- The sparse SET clause built by `VehicleRepository.update_vehicle`: only
fields whose argument is not `None` are assigned; `updated_at` is always
refreshed. -/
def applyVehicleUpdate (v : Vehicle) (now : String)
    (vehicle_type vehicle_name vin : Option String)
    (vehicle_number mileage last_service : Option Int) : Vehicle :=
  { v with
    vehicle_type := vehicle_type.getD v.vehicle_type,
    vehicle_name := vehicle_name.getD v.vehicle_name,
    vin := vin.getD v.vin,
    vehicle_number := vehicle_number.getD v.vehicle_number,
    mileage := mileage.getD v.mileage,
    last_service := last_service.getD v.last_service,
    updated_at := now }

/-- `VehicleRepository.update_vehicle`: with no provided fields the source
returns before touching the connection; otherwise a single UPDATE statement
rewrites every row matching the id (SQLite re-checks the `vehicle_type`
CHECK constraint on each updated row, and a violation aborts the whole
statement). -/
def update_vehicle (s : DBState) (now : String) (vehicle_id : String)
    (vehicle_type vehicle_name vin : Option String)
    (vehicle_number mileage last_service : Option Int) :
    Except DBError Unit × DBState :=
  if vehicle_type.isNone && vehicle_name.isNone && vin.isNone
      && vehicle_number.isNone && mileage.isNone && last_service.isNone then
    (Except.ok (), s)
  else if s.vehicles.all (fun v =>
      v.vehicle_id != vehicle_id || checkVehicleType (vehicle_type.getD v.vehicle_type)) then
    (Except.ok (),
      { s with vehicles := s.vehicles.map (fun v =>
          if v.vehicle_id == vehicle_id then
            applyVehicleUpdate v now vehicle_type vehicle_name vin
              vehicle_number mileage last_service
          else v) })
  else
    (Except.error DBError.constraintViolation, s)

/-- The sparse SET clause built by `LocationRepository.update_location`.
A `None` argument means the field was not provided and keeps its stored
value; a provided `vehicle_id` or `last_audited_at` is always a non-NULL
string. -/
def applyLocationUpdate (l : Location) (now : String)
    (side : Option String) (row bin : Option Int)
    (vehicle_id last_audited_at : Option String) : Location :=
  { l with
    side := side.getD l.side,
    row := row.getD l.row,
    bin := bin.getD l.bin,
    vehicle_id := match vehicle_id with
      | some v => some v
      | none => l.vehicle_id,
    last_audited_at := match last_audited_at with
      | some t => some t
      | none => l.last_audited_at,
    updated_at := now }

/-- UNIQUE-violation check after `update_location` rewrites the rows whose
`location_id` matches `target`: SQLite rejects the statement when an
updated row conflicts with any other row. -/
def hasPairConflict (target : String) : List Location → Bool
  | [] => false
  | l :: rest =>
    rest.any (fun m =>
      (l.location_id == target || m.location_id == target) && locTupleConflict l m)
      || hasPairConflict target rest

/-- `LocationRepository.update_location`: no provided fields is a silent
no-op; otherwise one UPDATE rewrites every matching row.  SQLite checks the
foreign key to `Vehicle` and the UNIQUE tuple only on rows actually
updated; a violation aborts the statement atomically. -/
def update_location (s : DBState) (now : String) (location_id : String)
    (side : Option String) (row bin : Option Int)
    (vehicle_id last_audited_at : Option String) :
    Except DBError Unit × DBState :=
  if side.isNone && row.isNone && bin.isNone
      && vehicle_id.isNone && last_audited_at.isNone then
    (Except.ok (), s)
  else
    let touched := s.locations.any (fun l => l.location_id == location_id)
    let newLocs := s.locations.map (fun l =>
      if l.location_id == location_id then
        applyLocationUpdate l now side row bin vehicle_id last_audited_at
      else l)
    let fkOk : Bool := !touched ||
      (match vehicle_id with
       | none => true
       | some v => s.vehicles.any (fun w => w.vehicle_id == v))
    if fkOk && !hasPairConflict location_id newLocs then
      (Except.ok (), { s with locations := newLocs })
    else
      (Except.error DBError.constraintViolation, s)

/-- The sparse SET clause built by `InventoryRepository.update_inventory`
(`consumable` is translated to 0/1 when provided, skipped when `None`). -/
def applyInventoryUpdate (it : InventoryItem) (now : String)
    (description location_id : Option String) (consumable : Option Bool)
    (manufacturer model serial_number : Option String) : InventoryItem :=
  { it with
    description := description.getD it.description,
    location_id := location_id.getD it.location_id,
    consumable := match consumable with
      | some b => if b then 1 else 0
      | none => it.consumable,
    manufacturer := match manufacturer with
      | some m => some m
      | none => it.manufacturer,
    model := match model with
      | some m => some m
      | none => it.model,
    serial_number := match serial_number with
      | some m => some m
      | none => it.serial_number,
    updated_at := now }

/-- `InventoryRepository.update_inventory`: no provided fields is a silent
no-op; otherwise one UPDATE rewrites every matching row, with SQLite
checking the foreign key to `Location` on rows actually updated. -/
def update_inventory (s : DBState) (now : String) (asset_id : String)
    (description location_id : Option String) (consumable : Option Bool)
    (manufacturer model serial_number : Option String) :
    Except DBError Unit × DBState :=
  if description.isNone && location_id.isNone && consumable.isNone
      && manufacturer.isNone && model.isNone && serial_number.isNone then
    (Except.ok (), s)
  else
    let touched := s.inventory.any (fun it => it.asset_id == asset_id)
    let fkOk : Bool := !touched ||
      (match location_id with
       | none => true
       | some lid => s.locations.any (fun l => l.location_id == lid))
    if fkOk then
      (Except.ok (),
        { s with inventory := s.inventory.map (fun it =>
            if it.asset_id == asset_id then
              applyInventoryUpdate it now description location_id consumable
                manufacturer model serial_number
            else it) })
    else
      (Except.error DBError.constraintViolation, s)

/-- `VehicleRepository.delete_vehicle`: the DELETE fires the
`ON DELETE SET NULL` rule of `Location.vehicle_id`; nothing else changes
and no error is possible. -/
def delete_vehicle (s : DBState) (vehicle_id : String) : DBState :=
  { s with
    vehicles := s.vehicles.filter (fun v => v.vehicle_id != vehicle_id),
    locations := s.locations.map (fun l =>
      if l.vehicle_id == some vehicle_id then { l with vehicle_id := none } else l) }

/-- `LocationRepository.delete_location`: the `ON DELETE RESTRICT` rule of
`Inventory.location_id` (and the default NO ACTION rules of the audit
foreign keys) make SQLite reject the DELETE with `IntegrityError` when the
row being deleted is still referenced; the statement aborts atomically. -/
def delete_location (s : DBState) (location_id : String) :
    Except DBError Unit × DBState :=
  let referenced :=
    s.inventory.any (fun it => it.location_id == location_id)
      || s.audits.any (fun a =>
          a.from_location_id == some location_id || a.to_location_id == some location_id)
  if referenced && s.locations.any (fun l => l.location_id == location_id) then
    (Except.error DBError.constraintViolation, s)
  else
    (Except.ok (),
      { s with locations := s.locations.filter (fun l => l.location_id != location_id) })

/-- `InventoryRepository.delete_inventory`: the DELETE cascades to the
audit records of the asset (`ON DELETE CASCADE`). -/
def delete_inventory (s : DBState) (asset_id : String) : DBState :=
  { s with
    inventory := s.inventory.filter (fun it => it.asset_id != asset_id),
    audits := s.audits.filter (fun a => a.asset_id != asset_id) }

/-- `AuditRepository.record_audit`: `timestamp = audited_at or iso_now()` —
the Python `or` falls back to the clock when `audited_at` is `None` or the
empty string.  SQLite enforces the foreign keys to `Inventory` and
`Location`; the returned number is `cursor.lastrowid`. -/
def record_audit (s : DBState) (now : String) (asset_id action : String)
    (from_location_id to_location_id notes user : Option String)
    (audited_at : Option String) : Except DBError Nat × DBState :=
  let timestamp :=
    match audited_at with
    | some t => if t == "" then now else t
    | none => now
  let fkOk :=
    s.inventory.any (fun it => it.asset_id == asset_id)
      && (match from_location_id with
          | none => true
          | some l => s.locations.any (fun m => m.location_id == l))
      && (match to_location_id with
          | none => true
          | some l => s.locations.any (fun m => m.location_id == l))
  if fkOk then
    let entry : AuditRecord :=
      { audit_id := s.nextAuditId, asset_id := asset_id,
        from_location_id := from_location_id, to_location_id := to_location_id,
        action := action, notes := notes, audited_at := timestamp, user := user }
    (Except.ok s.nextAuditId,
      { s with audits := s.audits ++ [entry], nextAuditId := s.nextAuditId + 1 })
  else
    (Except.error DBError.constraintViolation, s)

/-- `SELECT ... WHERE location_id = ? ... fetchone`
(`LocationRepository.get_location`). -/
def get_location (s : DBState) (location_id : String) : Option Location :=
  s.locations.find? (fun l => l.location_id == location_id)

/-- `VehicleRepository.get_vehicle`. -/
def get_vehicle (s : DBState) (vehicle_id : String) : Option Vehicle :=
  s.vehicles.find? (fun v => v.vehicle_id == vehicle_id)

/-- Code-point lexicographic comparison of character lists: the BINARY
collation SQLite uses for `ORDER BY` on text, and the order Python
`sorted` uses on strings. -/
def charListLe : List Char → List Char → Bool
  | [], _ => true
  | _ :: _, [] => false
  | a :: as, b :: bs =>
    if a.toNat < b.toNat then true
    else if b.toNat < a.toNat then false
    else charListLe as bs

/-- Lexicographic comparison of strings by code point. -/
def strLe (a b : String) : Bool := charListLe a.data b.data

/-- ASCII lowercasing, character by character. -/
def strLower (s : String) : String := String.mk (s.data.map Char.toLower)

/-- ASCII uppercasing, character by character (Python `str.upper`). -/
def strUpper (s : String) : String := String.mk (s.data.map Char.toUpper)

/-- Comparison on nullable text columns: SQL orders NULL before any
value. -/
def optStrLe (a b : Option String) : Bool :=
  match a, b with
  | none, _ => true
  | some _, none => false
  | some x, some y => strLe x y

/-- `ORDER BY side, row, bin`. -/
def locationSideLe (a b : Location) : Bool :=
  if a.side == b.side then
    if a.row == b.row then decide (a.bin ≤ b.bin) else decide (a.row ≤ b.row)
  else strLe a.side b.side

/-- `ORDER BY vehicle_id, side, row, bin`. -/
def locationKeyLe (a b : Location) : Bool :=
  if a.vehicle_id == b.vehicle_id then locationSideLe a b
  else optStrLe a.vehicle_id b.vehicle_id

/-- `LocationRepository.list_locations`: Python `if vehicle_id:` treats
both `None` and the empty string as falsy and lists the whole table. -/
def list_locations (s : DBState) (vehicle_id : Option String) : List Location :=
  match vehicle_id with
  | some v =>
    if v == "" then sqlSort locationKeyLe s.locations
    else sqlSort locationSideLe (s.locations.filter (fun l => l.vehicle_id == some v))
  | none => sqlSort locationKeyLe s.locations

/-- ASCII case-insensitive substring test modelling SQLite
`col LIKE wildcard-search-wildcard` (LIKE metacharacters inside the search
term are not modelled; the call sites of this embedding use plain text). -/
def likeMatch (pat col : String) : Bool :=
  decide (List.IsInfix (strLower pat).data (strLower col).data)

/-- `LIKE` on a nullable column: NULL never matches. -/
def likeOpt (pat : String) : Option String → Bool
  | none => false
  | some c => likeMatch pat c

/-- The WHERE clause of `InventoryRepository.list_inventory_filtered` for a
non-empty search term: the `%search%` pattern across six columns. -/
def searchMatch (search : String) (it : InventoryItem) : Bool :=
  likeMatch search it.asset_id || likeMatch search it.description
    || likeOpt search it.manufacturer || likeOpt search it.model
    || likeOpt search it.serial_number || likeMatch search it.location_id

/-- The ORDER BY column allow-list of `list_inventory_filtered`: unknown
keys fall back to `description`. -/
def invOrderCol (order_by : String) : InventoryItem → String :=
  if order_by == "asset_id" then fun it => it.asset_id
  else if order_by == "location_id" then fun it => it.location_id
  else fun it => it.description

/-- `ORDER BY {order_col} {ASC|DESC}` (`DESC` only on the exact uppercase
spelling, as in the source). -/
def invOrderLe (order_by order_dir : String) (a b : InventoryItem) : Bool :=
  if strUpper order_dir == "DESC" then
    strLe (invOrderCol order_by b) (invOrderCol order_by a)
  else
    strLe (invOrderCol order_by a) (invOrderCol order_by b)

/-- SQLite `LIMIT ? OFFSET ?` semantics: a negative OFFSET behaves as 0,
and a negative LIMIT means no limit at all — only `LIMIT 0` yields no
rows. -/
def applyLimitOffset (rows : List α) (limit offSet : Int) : List α :=
  let dropped := rows.drop offSet.toNat
  if limit < 0 then dropped else dropped.take limit.toNat

/-- The rows matched by the WHERE clause of `list_inventory_filtered`
(Python `if search:` — the empty search term builds no WHERE clause). -/
def invMatches (s : DBState) (search : String) : List InventoryItem :=
  if search == "" then s.inventory else s.inventory.filter (searchMatch search)

/-- `InventoryRepository.list_inventory_filtered`: one COUNT query under
the WHERE clause, then the data query under the same clause with ORDER BY
and LIMIT/OFFSET; returns `(rows, total)`. -/
def list_inventory_filtered (s : DBState) (search : String)
    (limit offSet : Int) (order_by order_dir : String) :
    List InventoryItem × Nat :=
  let total :=
    if search == "" then s.inventory.length
    else s.inventory.countP (fun it => searchMatch search it)
  (applyLimitOffset (sqlSort (invOrderLe order_by order_dir) (invMatches s search))
      limit offSet, total)

/-- One row of the denormalized display view produced by
`list_inventory_view_filtered`: the inventory columns joined with the
location columns and, through the LEFT JOIN, the nullable vehicle name and
type. -/
structure InventoryViewRow where
  asset_id : String
  location_id : String
  description : String
  consumable : Int
  manufacturer : Option String
  model : Option String
  serial_number : Option String
  vehicle_name : Option String
  vehicle_type : Option String
  side : String
  row : Int
  bin : Int
  last_audited_at : Option String
  deriving DecidableEq, Repr

/-- `LEFT JOIN Vehicle ON loc.vehicle_id = veh.vehicle_id`: the matching
vehicles, or a single NULL row when none matches. -/
def leftJoinVehicles (s : DBState) (loc : Location) : List (Option Vehicle) :=
  match s.vehicles.filter (fun v => loc.vehicle_id == some v.vehicle_id) with
  | [] => [none]
  | vs => vs.map some

/-- The FROM/JOIN clause shared by the view queries:
`Inventory JOIN Location ON inv.location_id = loc.location_id LEFT JOIN
Vehicle ON loc.vehicle_id = veh.vehicle_id`, producing one row per joined
combination in table order. -/
def viewRows (s : DBState) : List InventoryViewRow :=
  s.inventory.flatMap (fun inv =>
    (s.locations.filter (fun loc => loc.location_id == inv.location_id)).flatMap
      (fun loc =>
        (leftJoinVehicles s loc).map (fun ov =>
          { asset_id := inv.asset_id, location_id := inv.location_id,
            description := inv.description, consumable := inv.consumable,
            manufacturer := inv.manufacturer, model := inv.model,
            serial_number := inv.serial_number,
            vehicle_name := ov.map (fun v => v.vehicle_name),
            vehicle_type := ov.map (fun v => v.vehicle_type),
            side := loc.side, row := loc.row, bin := loc.bin,
            last_audited_at := loc.last_audited_at })))

/-- Dictionary lookup in the `filters` mapping (a Python dict, modelled as
an association list). -/
def dictGet (fs : List (String × String)) (k : String) : Option String :=
  (fs.find? (fun p => p.1 == k)).map (fun p => p.2)

/-- `filters.pop("global", None) or filters.pop("__global__", None)`:
the first truthy (non-empty) of the two global-search keys. -/
def globalTerm (fs : List (String × String)) : Option String :=
  match dictGet fs "global" with
  | some v =>
    if v == "" then
      match dictGet fs "__global__" with
      | some w => if w == "" then none else some w
      | none => none
    else some v
  | none =>
    match dictGet fs "__global__" with
    | some w => if w == "" then none else some w
    | none => none

/-- The 9-column OR block built for a truthy global term. -/
def viewGlobalMatch (t : String) (r : InventoryViewRow) : Bool :=
  likeMatch t r.asset_id || likeMatch t r.location_id || likeMatch t r.description
    || likeOpt t r.manufacturer || likeOpt t r.model || likeOpt t r.serial_number
    || likeOpt t r.vehicle_name || likeOpt t r.vehicle_type || likeMatch t r.side

/-- Decimal digits to a number; `none` on any non-digit. -/
def digitsToNat : List Char → Option Nat → Option Nat
  | [], acc => acc
  | c :: cs, acc =>
    if c.isDigit then
      digitsToNat cs (acc.map (fun n => n * 10 + (c.toNat - 48)))
    else none

/-- The value bound against an INTEGER column (`row`/`bin`): SQLite
converts the text parameter under integer affinity; a non-numeric text
never equals an integer.  (Leading/trailing whitespace and a leading plus
sign are not modelled; the GUI passes bare digits.) -/
def parseInt (v : String) : Option Int :=
  match v.data with
  | [] => none
  | c :: cs =>
    if c == '-' then (digitsToNat cs (some 0)).map (fun n => -(n : Int))
    else (digitsToNat (c :: cs) (some 0)).map (fun n => (n : Int))

/-- One `key = value` entry of the filter loop in
`list_inventory_view_filtered`: falsy values and unknown keys are skipped,
`row`/`bin` use exact (integer-affinity) match, `consumable` maps the text
`yes` (case-insensitively) to 1 and anything else to 0, and every other
allow-listed column uses a LIKE substring match. -/
def viewRowMatchesFilter (r : InventoryViewRow) (k v : String) : Bool :=
  if v == "" then true
  else if k == "row" then
    match parseInt v with
    | some n => r.row == n
    | none => false
  else if k == "bin" then
    match parseInt v with
    | some n => r.bin == n
    | none => false
  else if k == "consumable" then
    r.consumable == (if strLower v == "yes" then 1 else 0)
  else if k == "asset_id" then likeMatch v r.asset_id
  else if k == "location_id" then likeMatch v r.location_id
  else if k == "description" then likeMatch v r.description
  else if k == "manufacturer" then likeOpt v r.manufacturer
  else if k == "model" then likeOpt v r.model
  else if k == "serial_number" then likeOpt v r.serial_number
  else if k == "vehicle_name" then likeOpt v r.vehicle_name
  else if k == "vehicle_type" then likeOpt v r.vehicle_type
  else if k == "side" then likeMatch v r.side
  else if k == "last_audited_at" then likeOpt v r.last_audited_at
  else true

/-- The whole WHERE clause of `list_inventory_view_filtered`: the global
block ANDed with every recognized per-column filter (the two global keys
are consumed by `pop` or skipped as unknown columns). -/
def viewFilterPred (fs : List (String × String)) (r : InventoryViewRow) : Bool :=
  (match globalTerm fs with
   | some t => viewGlobalMatch t r
   | none => true)
    && fs.all (fun p =>
      if p.1 == "global" || p.1 == "__global__" then true
      else viewRowMatchesFilter r p.1 p.2)

/-- The view rows matched by the WHERE clause. -/
def viewMatches (s : DBState) (fs : List (String × String)) : List InventoryViewRow :=
  (viewRows s).filter (fun r => viewFilterPred fs r)

/-- The ORDER BY key of the view listing: any allow-listed column, falling
back to `inv.description`; NULLs sort first, text by BINARY collation,
integer columns numerically. -/
def viewOrderLe (order_by order_dir : String) (a b : InventoryViewRow) : Bool :=
  let cmp : InventoryViewRow → InventoryViewRow → Bool :=
    if order_by == "asset_id" then fun x y => strLe x.asset_id y.asset_id
    else if order_by == "location_id" then fun x y => strLe x.location_id y.location_id
    else if order_by == "consumable" then fun x y => decide (x.consumable ≤ y.consumable)
    else if order_by == "manufacturer" then fun x y => optStrLe x.manufacturer y.manufacturer
    else if order_by == "model" then fun x y => optStrLe x.model y.model
    else if order_by == "serial_number" then fun x y => optStrLe x.serial_number y.serial_number
    else if order_by == "vehicle_name" then fun x y => optStrLe x.vehicle_name y.vehicle_name
    else if order_by == "vehicle_type" then fun x y => optStrLe x.vehicle_type y.vehicle_type
    else if order_by == "side" then fun x y => strLe x.side y.side
    else if order_by == "row" then fun x y => decide (x.row ≤ y.row)
    else if order_by == "bin" then fun x y => decide (x.bin ≤ y.bin)
    else if order_by == "last_audited_at" then fun x y => optStrLe x.last_audited_at y.last_audited_at
    else fun x y => strLe x.description y.description
  if strUpper order_dir == "DESC" then cmp b a else cmp a b

/-- `InventoryRepository.list_inventory_view_filtered`: COUNT under the
WHERE clause over the three-table join, then the data query under the same
clause with ORDER BY and LIMIT/OFFSET; returns `(rows, total)`. -/
def list_inventory_view_filtered (s : DBState) (fs : List (String × String))
    (order_by order_dir : String) (limit offSet : Int) :
    List InventoryViewRow × Nat :=
  let total := (viewRows s).countP (fun r => viewFilterPred fs r)
  (applyLimitOffset (sqlSort (viewOrderLe order_by order_dir) (viewMatches s fs))
      limit offSet, total)

/-- The glob pattern `inventory_*.db` of `prune_backups`. -/
def isBackupFile (name : String) : Bool :=
  List.isPrefixOf "inventory_".data name.data
    && List.isSuffixOf ".db".data name.data
    && decide (13 ≤ name.data.length)

/-- `backup.prune_backups` on a directory modelled as the list of its file
names: glob, sort ascending (the embedded timestamp makes filename order
timestamp order), and unless `max_backups ≤ 0` or there are at most
`max_backups` backups, unlink `backups[:-max_backups]`.  Returns the list
of removed files and the directory afterwards (`unlink` is modelled as
always succeeding; the source merely skips files it cannot remove). -/
def prune_backups (dir : List String) (max_backups : Int) :
    List String × List String :=
  let backups := sqlSort strLe (dir.filter (fun f => isBackupFile f))
  if max_backups ≤ 0 ∨ (backups.length : Int) ≤ max_backups then ([], dir)
  else
    let removed := backups.take (backups.length - max_backups.toNat)
    (removed, dir.filter (fun f => !removed.contains f))

/-! Concrete sample data used to instantiate the theorems below. -/

/-- A freshly initialized store. -/
def emptyState : DBState :=
  { globalIds := [], vehicles := [], locations := [], inventory := [],
    audits := [], nextAuditId := 1 }

def locA : Location :=
  { location_id := "00000001", vehicle_id := none, side := "Left",
    row := 1, bin := 1, created_at := "2024-01-01T00:00:00",
    updated_at := "2024-01-01T00:00:00", last_audited_at := none }

def itemA : InventoryItem :=
  { asset_id := "00000002", description := "Wrench", location_id := "00000001",
    consumable := 0, manufacturer := none, model := none, serial_number := none,
    created_at := "2024-01-01T00:00:00", updated_at := "2024-01-01T00:00:00" }

/-- One location holding one inventory item. -/
def stateA : DBState :=
  { globalIds := ["00000001", "00000002"], vehicles := [], locations := [locA],
    inventory := [itemA], audits := [], nextAuditId := 1 }

def vehA : Vehicle :=
  { vehicle_id := "00000003", vehicle_type := "Truck", vehicle_name := "Alpha",
    vin := "VIN123", vehicle_number := 7, mileage := 100, last_service := 50,
    created_at := "2024-01-01T00:00:00", updated_at := "2024-01-01T00:00:00" }

def locB : Location :=
  { location_id := "00000004", vehicle_id := some "00000003", side := "Right",
    row := 2, bin := 3, created_at := "2024-01-01T00:00:00",
    updated_at := "2024-01-01T00:00:00", last_audited_at := none }

/-- One vehicle owning one location. -/
def stateB : DBState :=
  { globalIds := ["00000003", "00000004"], vehicles := [vehA], locations := [locB],
    inventory := [], audits := [], nextAuditId := 1 }

/-- The row `create_vehicle` writes when given empty name and VIN. -/
def vehEmptyName : Vehicle :=
  { vehicle_id := "00000007", vehicle_type := "Truck", vehicle_name := "",
    vin := "", vehicle_number := 0, mileage := 0, last_service := 0,
    created_at := "2024-02-02T00:00:00", updated_at := "2024-02-02T00:00:00" }

/-- The store after `create_vehicle` on the empty store with empty name
and VIN. -/
def stateAfterEmptyCreate : DBState :=
  { globalIds := ["00000007"], vehicles := [vehEmptyName], locations := [],
    inventory := [], audits := [], nextAuditId := 1 }

def itemOil : InventoryItem :=
  { asset_id := "00000008", description := "Oil filter", location_id := "00000001",
    consumable := 1, manufacturer := some "ACME", model := none, serial_number := none,
    created_at := "2024-01-01T00:00:00", updated_at := "2024-01-01T00:00:00" }

/-- One location holding one inventory item, for listing queries. -/
def stateC : DBState :=
  { globalIds := ["00000001", "00000008"], vehicles := [], locations := [locA],
    inventory := [itemOil], audits := [], nextAuditId := 1 }

/-- The single view row of `stateC`: `itemOil` joined with `locA`, with a
NULL vehicle from the LEFT JOIN. -/
def viewRowOil : InventoryViewRow :=
  { asset_id := "00000008", location_id := "00000001",
    description := "Oil filter", consumable := 1,
    manufacturer := some "ACME", model := none, serial_number := none,
    vehicle_name := none, vehicle_type := none,
    side := "Left", row := 1, bin := 1, last_audited_at := none }

/-- Five pre-existing backup files plus a newest sixth one, unsorted. -/
def dirSix : List String :=
  ["inventory_20240105_000000.db", "inventory_20240101_000000.db",
   "inventory_20240104_000000.db", "inventory_20240102_000000.db",
   "inventory_20240106_000000.db", "inventory_20240103_000000.db"]

/-- `dirSix` sorted ascending by filename. -/
def sortedSix : List String :=
  ["inventory_20240101_000000.db", "inventory_20240102_000000.db",
   "inventory_20240103_000000.db", "inventory_20240104_000000.db",
   "inventory_20240105_000000.db", "inventory_20240106_000000.db"]

/-- The audit row stored for a caller-supplied `audited_at`. -/
def auditBackdated : AuditRecord :=
  { audit_id := 1, asset_id := "00000002", from_location_id := none,
    to_location_id := none, action := "audit", notes := none,
    audited_at := "2020-01-01T00:00:00", user := none }

/-- The audit row stored when no `audited_at` is supplied. -/
def auditNow : AuditRecord :=
  { audit_id := 1, asset_id := "00000002", from_location_id := none,
    to_location_id := none, action := "audit", notes := none,
    audited_at := "2024-05-05T05:05:05", user := none }

def stateAuditNow : DBState :=
  { stateA with audits := [auditNow], nextAuditId := 2 }

def stateAuditBack : DBState :=
  { stateA with audits := [auditBackdated], nextAuditId := 2 }

def vehNine : Vehicle :=
  { vehicle_id := "00000009", vehicle_type := "Truck", vehicle_name := "T",
    vin := "V", vehicle_number := 1, mileage := 0, last_service := 0,
    created_at := "2024-05-05T05:05:05", updated_at := "2024-05-05T05:05:05" }

def stateVehNine : DBState :=
  { stateA with
    globalIds := ["00000009", "00000001", "00000002"],
    vehicles := [vehNine] }

def locNine : Location :=
  { location_id := "00000009", vehicle_id := none, side := "Left",
    row := 2, bin := 2, created_at := "2024-05-05T05:05:05",
    updated_at := "2024-05-05T05:05:05", last_audited_at := none }

def stateLocNine : DBState :=
  { stateA with
    globalIds := ["00000009", "00000001", "00000002"],
    locations := [locA, locNine] }

def itemNine : InventoryItem :=
  { asset_id := "00000009", description := "Box", location_id := "00000001",
    consumable := 0, manufacturer := none, model := none, serial_number := none,
    created_at := "2024-05-05T05:05:05", updated_at := "2024-05-05T05:05:05" }

def stateItemNine : DBState :=
  { stateA with
    globalIds := ["00000009", "00000001", "00000002"],
    inventory := [itemA, itemNine] }

/-! Helper lemmas about the identifier allocator. -/

theorem digitChar_isDigit (d : Nat) (h : d < 10) : (digitChar d).isDigit = true := by
  interval_cases d <;> decide

theorem format08_length (n : Nat) : (format08 n).length = 8 := rfl

theorem format08_digits (n : Nat) : ∀ c ∈ (format08 n).data, c.isDigit = true := by
  intro c hc
  simp only [format08, String.data, List.mem_cons, List.not_mem_nil, or_false] at hc
  rcases hc with h | h | h | h | h | h | h | h <;>
    (subst h; exact digitChar_isDigit _ (Nat.mod_lt _ (by norm_num)))

theorem generate_global_id_spec (g : List String) (cs : List Nat) (i : String)
    (g1 : List String) (h : generate_global_id g cs = some (i, g1)) :
    (∃ c ∈ cs, i = format08 c) ∧ i ∉ g ∧ g1 = i :: g := by
  induction cs with
  | nil => simp [generate_global_id] at h
  | cons c cs ih =>
    rw [show generate_global_id g (c :: cs)
        = if format08 c ∈ g then generate_global_id g cs
          else some (format08 c, format08 c :: g) from rfl] at h
    by_cases hc : format08 c ∈ g
    · rw [if_pos hc] at h
      obtain ⟨⟨c', hc', hi⟩, hni, hg⟩ := ih h
      exact ⟨⟨c', List.mem_cons_of_mem _ hc', hi⟩, hni, hg⟩
    · rw [if_neg hc] at h
      simp only [Option.some.injEq, Prod.mk.injEq] at h
      obtain ⟨hi, hg⟩ := h
      subst hi
      exact ⟨⟨c, List.mem_cons_self c cs, rfl⟩, hc, hg.symm⟩

theorem allocateRun_spec (css : List (List Nat)) (g ids g' : List String)
    (h : allocateRun g css = some (ids, g')) :
    (∀ i ∈ ids, ∃ cs ∈ css, ∃ c ∈ cs, i = format08 c)
      ∧ ids.Nodup ∧ (∀ i ∈ ids, i ∉ g) ∧ g' = ids.reverse ++ g := by
  induction css generalizing g ids g' with
  | nil =>
    simp only [allocateRun, Option.some.injEq, Prod.mk.injEq] at h
    obtain ⟨hids, hg⟩ := h
    subst hids
    subst hg
    simp
  | cons cs rest ih =>
    rw [show allocateRun g (cs :: rest)
        = (match generate_global_id g cs with
           | none => none
           | some (i, g1) =>
             match allocateRun g1 rest with
             | none => none
             | some (is, g2) => some (i :: is, g2)) from rfl] at h
    cases h1 : generate_global_id g cs with
    | none => rw [h1] at h; exact absurd h (by simp)
    | some p =>
      obtain ⟨i, g1⟩ := p
      rw [h1] at h
      dsimp only at h
      cases h2 : allocateRun g1 rest with
      | none => rw [h2] at h; exact absurd h (by simp)
      | some q =>
        obtain ⟨is, g2⟩ := q
        rw [h2] at h
        simp only [Option.some.injEq, Prod.mk.injEq] at h
        obtain ⟨hids, hg⟩ := h
        subst hids
        subst hg
        obtain ⟨⟨c, hcmem, hnum⟩, hfresh, hg1⟩ := generate_global_id_spec g cs i g1 h1
        obtain ⟨hform, hnd, hni, hg2⟩ := ih g1 is g2 h2
        subst hg1
        refine ⟨?_, ?_, ?_, ?_⟩
        · intro j hj
          rcases List.mem_cons.mp hj with hj | hj
          · exact ⟨cs, List.mem_cons_self _ _, c, hcmem, hj ▸ hnum⟩
          · obtain ⟨cs', hcs', c', hc', hj'⟩ := hform j hj
            exact ⟨cs', List.mem_cons_of_mem _ hcs', c', hc', hj'⟩
        · refine List.nodup_cons.mpr ⟨?_, hnd⟩
          intro hmem
          exact (hni i hmem) (List.mem_cons_self _ _)
        · intro j hj
          rcases List.mem_cons.mp hj with hj | hj
          · exact hj ▸ hfresh
          · intro hjg
            exact (hni j hj) (List.mem_cons_of_mem _ hjg)
        · rw [hg2]
          simp

/-- C1: for every sequence of allocator calls, each returned identifier is
an 8-digit numeric string, the returned identifiers are pairwise distinct,
and each one is recorded in the `GlobalId` set handed back with it (it was
fresh with respect to the prior set).  An identifier already in the set is
never issued again, and the delete operations of all three entity
repositories never shrink the `GlobalId` set, so an issued identifier is
never reused even after the owning entity is deleted. -/
theorem C1_allocator_unique_8digit (g : List String) (css : List (List Nat))
    (ids g' : List String) (s : DBState) (vid lid aid : String)
    (_hrange : ∀ cs ∈ css, ∀ c ∈ cs, 1 ≤ c ∧ c ≤ 99999999)
    (hrun : allocateRun g css = some (ids, g')) :
    (∀ i ∈ ids, i.length = 8 ∧ ∀ ch ∈ i.data, ch.isDigit = true)
      ∧ ids.Nodup
      ∧ (∀ i ∈ ids, i ∈ g')
      ∧ (∀ i ∈ g, i ∉ ids)
      ∧ (delete_vehicle s vid).globalIds = s.globalIds
      ∧ (delete_location s lid).2.globalIds = s.globalIds
      ∧ (delete_inventory s aid).globalIds = s.globalIds := by
  obtain ⟨hform, hnd, hni, hg⟩ := allocateRun_spec css g ids g' hrun
  refine ⟨?_, hnd, ?_, ?_, rfl, ?_, rfl⟩
  · intro i hi
    obtain ⟨cs, _, c, _, hic⟩ := hform i hi
    subst hic
    exact ⟨format08_length c, format08_digits c⟩
  · intro i hi
    rw [hg]
    exact List.mem_append_left _ (List.mem_reverse.mpr hi)
  · intro i hig hmem
    exact (hni i hmem) hig
  · dsimp only [delete_location]
    split <;> rfl

/-- Witness for C1 at a concrete run of two allocator calls, the second of
which retries once on a collision with the first. -/
theorem C1_allocator_unique_8digit_witness :
    (∀ i ∈ (["00000005", "00000007"] : List String),
        i.length = 8 ∧ ∀ ch ∈ i.data, ch.isDigit = true)
      ∧ (["00000005", "00000007"] : List String).Nodup
      ∧ (∀ i ∈ (["00000005", "00000007"] : List String),
          i ∈ (["00000007", "00000005"] : List String))
      ∧ (∀ i ∈ ([] : List String), i ∉ (["00000005", "00000007"] : List String))
      ∧ (delete_vehicle stateA "00000003").globalIds = stateA.globalIds
      ∧ (delete_location stateA "00000001").2.globalIds = stateA.globalIds
      ∧ (delete_inventory stateA "00000002").globalIds = stateA.globalIds :=
  C1_allocator_unique_8digit [] [[5], [5, 7]] ["00000005", "00000007"]
    ["00000007", "00000005"] stateA "00000003" "00000001" "00000002"
    (by decide) (by decide)

/-! Helper lemmas about the `ORDER BY` sort. -/

theorem orderedIns_perm (le : α → α → Bool) (a : α) (l : List α) :
    List.Perm (orderedIns le a l) (a :: l) := by
  induction l with
  | nil => exact List.Perm.refl _
  | cons b l ih =>
    rw [orderedIns]
    by_cases h : le a b = true
    · rw [if_pos h]
    · rw [if_neg h]
      exact (List.Perm.cons b ih).trans (List.Perm.swap a b l)

theorem sqlSort_perm (le : α → α → Bool) (l : List α) :
    List.Perm (sqlSort le l) l := by
  induction l with
  | nil => exact List.Perm.refl _
  | cons a l ih =>
    exact (orderedIns_perm le a (sqlSort le l)).trans (List.Perm.cons a ih)

theorem mem_sqlSort (le : α → α → Bool) (l : List α) (a : α) :
    a ∈ sqlSort le l ↔ a ∈ l :=
  (sqlSort_perm le l).mem_iff

theorem length_sqlSort (le : α → α → Bool) (l : List α) :
    (sqlSort le l).length = l.length :=
  (sqlSort_perm le l).length_eq

/-- C2: deleting a Location referenced by at least one InventoryItem fails
with ConstraintViolation and the entire store — in particular the Location
row and all its InventoryItem rows — is unchanged. -/
theorem C2_delete_location_restrict (s : DBState) (lid : String)
    (l : Location) (hl : l ∈ s.locations) (hlid : l.location_id = lid)
    (it : InventoryItem) (hit : it ∈ s.inventory) (hitl : it.location_id = lid) :
    delete_location s lid = (Except.error DBError.constraintViolation, s) := by
  have hinv : s.inventory.any (fun j => j.location_id == lid) = true :=
    List.any_eq_true.mpr ⟨it, hit, by simp [hitl]⟩
  have hloc : s.locations.any (fun m => m.location_id == lid) = true :=
    List.any_eq_true.mpr ⟨l, hl, by simp [hlid]⟩
  simp only [delete_location, hinv, hloc, Bool.true_or, Bool.true_and,
    Bool.and_true, if_true]

/-- Witness for C2: the store `stateA` holds location `"00000001"` with one
item stored in it; deleting the location fails and changes nothing. -/
theorem C2_delete_location_restrict_witness :
    delete_location stateA "00000001" = (Except.error DBError.constraintViolation, stateA) :=
  C2_delete_location_restrict stateA "00000001" locA (by decide) (by decide)
    itemA (by decide) (by decide)

/-- `find?` by `location_id` over a rewrite of rows that keeps every
`location_id`, on a table whose `location_id` column has no duplicates. -/
theorem find?_map_of_nodup (f : Location → Location)
    (hf : ∀ m, (f m).location_id = m.location_id)
    (xs : List Location) (hnd : (xs.map (fun m => m.location_id)).Nodup)
    (l : Location) (hl : l ∈ xs) :
    (xs.map f).find? (fun m => m.location_id == l.location_id) = some (f l) := by
  induction xs with
  | nil => cases hl
  | cons x xs ih =>
    rw [List.map_cons, List.nodup_cons] at hnd
    rw [List.map_cons]
    rcases List.mem_cons.mp hl with hxl | hlxs
    · subst hxl
      rw [List.find?_cons_of_pos]
      simp [hf]
    · have hx : ((f x).location_id == l.location_id) = false := by
        rw [hf]
        simp only [beq_eq_false_iff_ne, ne_eq]
        intro heq
        exact hnd.1 (heq ▸ List.mem_map.mpr ⟨l, hlxs, rfl⟩)
      rw [List.find?_cons_of_neg _ (by simp [hx])]
      exact ih hnd.2 hlxs

/-- C3: after `delete_vehicle`, every Location that referenced the deleted
Vehicle still exists with its `vehicle_id` set to NULL and every other
field unchanged, and it is returned both by `list_locations` and by
`get_location`. -/
theorem C3_delete_vehicle_sets_null (s : DBState) (vid : String)
    (hnd : (s.locations.map (fun m => m.location_id)).Nodup)
    (l : Location) (hl : l ∈ s.locations) (hv : l.vehicle_id = some vid) :
    { l with vehicle_id := none } ∈ (delete_vehicle s vid).locations
      ∧ { l with vehicle_id := none } ∈ list_locations (delete_vehicle s vid) none
      ∧ get_location (delete_vehicle s vid) l.location_id
          = some { l with vehicle_id := none } := by
  have hfl : (fun m => if m.vehicle_id == some vid then { m with vehicle_id := none } else m) l
      = { l with vehicle_id := none } := by
    simp [hv]
  have hmem : { l with vehicle_id := none } ∈ (delete_vehicle s vid).locations := by
    exact List.mem_map.mpr ⟨l, hl, hfl⟩
  refine ⟨hmem, ?_, ?_⟩
  · exact (mem_sqlSort _ _ _).mpr hmem
  · have := find?_map_of_nodup
      (fun m => if m.vehicle_id == some vid then { m with vehicle_id := none } else m)
      (fun m => by by_cases h : m.vehicle_id == some vid <;> simp [h])
      s.locations hnd l hl
    rw [hfl] at this
    exact this

/-- Witness for C3: deleting vehicle `"00000003"` from `stateB` leaves its
location `"00000004"` in place with a NULL vehicle reference. -/
theorem C3_delete_vehicle_sets_null_witness :
    { locB with vehicle_id := none } ∈ (delete_vehicle stateB "00000003").locations
      ∧ { locB with vehicle_id := none } ∈ list_locations (delete_vehicle stateB "00000003") none
      ∧ get_location (delete_vehicle stateB "00000003") locB.location_id
          = some { locB with vehicle_id := none } :=
  C3_delete_vehicle_sets_null stateB "00000003" (by decide) locB (by decide) (by decide)

/-- C4 counterexample: on the empty store, `create_vehicle` with empty
name and empty VIN does not fail with ValidationError — it succeeds and
writes the row (the repository layer performs no required-field
validation). -/
theorem C4_create_no_validation_counterexample :
    create_vehicle emptyState "2024-02-02T00:00:00" [7] "Truck" "" "" 0 0 0
      = some (Except.ok vehEmptyName, stateAfterEmptyCreate)
      ∧ vehEmptyName.vehicle_name = "" ∧ vehEmptyName.vin = "" := by
  refine ⟨?_, rfl, rfl⟩
  decide

/-- C4 (amended): no repository create operation validates required fields
for emptiness, and none ever raises ValidationError.  Whenever the
allocator yields a fresh id: `create_vehicle` with empty name and empty
VIN succeeds and writes the row; `create_location` with empty side
succeeds and writes the row; `create_inventory` with empty description and
an existing location succeeds and writes the row; and `create_inventory`
with an empty location id fails — but through the foreign key as a
ConstraintViolation, not a ValidationError, writing no inventory row while
the allocated id stays consumed.  (Required-field checks live in the GUI
layer, outside the repositories.) -/
theorem C4_create_accepts_empty_fields (s : DBState) (now : String)
    (cands : List Nat) (i : String) (g1 : List String)
    (vnum mil ls ro bo : Int) (cons : Bool) (iman imod iser : Option String)
    (lid : String)
    (halloc : generate_global_id s.globalIds cands = some (i, g1))
    (hvfresh : s.vehicles.all (fun w => w.vehicle_id != i) = true)
    (hlfresh : s.locations.all (fun m => m.location_id != i) = true)
    (hifresh : s.inventory.all (fun it => it.asset_id != i) = true)
    (hlid : s.locations.any (fun l => l.location_id == lid) = true)
    (hnoempty : s.locations.any (fun l => l.location_id == "") = false) :
    create_vehicle s now cands "Truck" "" "" vnum mil ls
      = some (Except.ok
          { vehicle_id := i, vehicle_type := "Truck", vehicle_name := "",
            vin := "", vehicle_number := vnum, mileage := mil,
            last_service := ls, created_at := now, updated_at := now },
          { s with
            globalIds := g1,
            vehicles := s.vehicles ++
              [{ vehicle_id := i, vehicle_type := "Truck", vehicle_name := "",
                 vin := "", vehicle_number := vnum, mileage := mil,
                 last_service := ls, created_at := now, updated_at := now }] })
      ∧ create_location s now cands "" ro bo none
        = some (Except.ok
            { location_id := i, vehicle_id := none, side := "", row := ro,
              bin := bo, created_at := now, updated_at := now,
              last_audited_at := none },
            { s with
              globalIds := g1,
              locations := s.locations ++
                [{ location_id := i, vehicle_id := none, side := "", row := ro,
                   bin := bo, created_at := now, updated_at := now,
                   last_audited_at := none }] })
      ∧ create_inventory s now cands "" lid cons iman imod iser
        = some (Except.ok
            { asset_id := i, description := "", location_id := lid,
              consumable := if cons then 1 else 0, manufacturer := iman,
              model := imod, serial_number := iser,
              created_at := now, updated_at := now },
            { s with
              globalIds := g1,
              inventory := s.inventory ++
                [{ asset_id := i, description := "", location_id := lid,
                   consumable := if cons then 1 else 0, manufacturer := iman,
                   model := imod, serial_number := iser,
                   created_at := now, updated_at := now }] })
      ∧ create_inventory s now cands "" "" cons iman imod iser
        = some (Except.error DBError.constraintViolation,
            { s with globalIds := g1 }) := by
  refine ⟨?_, ?_, ?_, ?_⟩
  · have hc : (checkVehicleType "Truck"
        && s.vehicles.all (fun w => w.vehicle_id != i)) = true := by
      rw [hvfresh]
      rfl
    simp only [create_vehicle, halloc, hc, if_true]
  · have hconf : s.locations.all (fun m => !locTupleConflict m
        { location_id := i, vehicle_id := none, side := "", row := ro,
          bin := bo, created_at := now, updated_at := now,
          last_audited_at := none }) = true := by
      rw [List.all_eq_true]
      intro m _
      cases hm : m.vehicle_id <;> simp [locTupleConflict, hm]
    have hc : ((match (none : Option String) with
        | none => true
        | some v => s.vehicles.any (fun w => w.vehicle_id == v))
        && s.locations.all (fun m => !locTupleConflict m
            { location_id := i, vehicle_id := none, side := "", row := ro,
              bin := bo, created_at := now, updated_at := now,
              last_audited_at := none })
        && s.locations.all (fun m => m.location_id != i)) = true := by
      rw [hconf, hlfresh]
      rfl
    simp only [create_location, halloc, hc, if_true]
  · have hc : (s.locations.any (fun l => l.location_id == lid)
        && s.inventory.all (fun it => it.asset_id != i)) = true := by
      rw [hlid, hifresh]
      rfl
    simp only [create_inventory, halloc, hc, if_true]
  · have hc : (s.locations.any (fun l => l.location_id == "")
        && s.inventory.all (fun it => it.asset_id != i)) = false := by
      rw [hnoempty]
      rfl
    simp only [create_inventory, halloc]
    split
    · next hcond =>
      exact absurd (hc.symm.trans hcond) (by decide)
    · rfl

/-- Witness for the amended C4 on `stateA`, whose location `"00000001"`
receives the empty-description item. -/
theorem C4_create_accepts_empty_fields_witness :
    create_vehicle stateA "2024-02-02T00:00:00" [7] "Truck" "" "" 0 0 0
      = some (Except.ok
          { vehicle_id := "00000007", vehicle_type := "Truck", vehicle_name := "",
            vin := "", vehicle_number := 0, mileage := 0,
            last_service := 0, created_at := "2024-02-02T00:00:00",
            updated_at := "2024-02-02T00:00:00" },
          { stateA with
            globalIds := ["00000007", "00000001", "00000002"],
            vehicles := stateA.vehicles ++
              [{ vehicle_id := "00000007", vehicle_type := "Truck", vehicle_name := "",
                 vin := "", vehicle_number := 0, mileage := 0,
                 last_service := 0, created_at := "2024-02-02T00:00:00",
                 updated_at := "2024-02-02T00:00:00" }] })
      ∧ create_location stateA "2024-02-02T00:00:00" [7] "" 2 2 none
        = some (Except.ok
            { location_id := "00000007", vehicle_id := none, side := "", row := 2,
              bin := 2, created_at := "2024-02-02T00:00:00",
              updated_at := "2024-02-02T00:00:00", last_audited_at := none },
            { stateA with
              globalIds := ["00000007", "00000001", "00000002"],
              locations := stateA.locations ++
                [{ location_id := "00000007", vehicle_id := none, side := "", row := 2,
                   bin := 2, created_at := "2024-02-02T00:00:00",
                   updated_at := "2024-02-02T00:00:00", last_audited_at := none }] })
      ∧ create_inventory stateA "2024-02-02T00:00:00" [7] "" "00000001" false none none none
        = some (Except.ok
            { asset_id := "00000007", description := "", location_id := "00000001",
              consumable := 0, manufacturer := none, model := none,
              serial_number := none, created_at := "2024-02-02T00:00:00",
              updated_at := "2024-02-02T00:00:00" },
            { stateA with
              globalIds := ["00000007", "00000001", "00000002"],
              inventory := stateA.inventory ++
                [{ asset_id := "00000007", description := "", location_id := "00000001",
                   consumable := 0, manufacturer := none, model := none,
                   serial_number := none, created_at := "2024-02-02T00:00:00",
                   updated_at := "2024-02-02T00:00:00" }] })
      ∧ create_inventory stateA "2024-02-02T00:00:00" [7] "" "" false none none none
        = some (Except.error DBError.constraintViolation,
            { stateA with globalIds := ["00000007", "00000001", "00000002"] }) :=
  C4_create_accepts_empty_fields stateA "2024-02-02T00:00:00" [7]
    "00000007" ["00000007", "00000001", "00000002"] 0 0 0 2 2 false
    none none none "00000001"
    (by decide) (by decide) (by decide) (by decide) (by decide) (by decide)

/-- A row rewrite guarded by a predicate that no row satisfies leaves the
table unchanged. -/
theorem map_ite_id (p : α → Bool) (f : α → α) (xs : List α)
    (h : ∀ x ∈ xs, p x = false) :
    xs.map (fun x => if p x then f x else x) = xs := by
  induction xs with
  | nil => rfl
  | cons x xs ih =>
    have hx := h x (List.mem_cons_self _ _)
    rw [List.map_cons, ih (fun y hy => h y (List.mem_cons_of_mem _ hy)), hx]
    simp

/-- When no row carries the target id, an UPDATE on that id can violate no
UNIQUE constraint. -/
theorem hasPairConflict_eq_false (target : String) (ls : List Location)
    (h : ∀ l ∈ ls, l.location_id ≠ target) :
    hasPairConflict target ls = false := by
  induction ls with
  | nil => rfl
  | cons l rest ih =>
    have h1 : (l.location_id == target) = false := by
      simp [h l (List.mem_cons_self _ _)]
    have h2 : rest.any (fun m =>
        (l.location_id == target || m.location_id == target) && locTupleConflict l m) = false := by
      rw [List.any_eq_false]
      intro m hm
      have h3 : (m.location_id == target) = false := by
        simp [h m (List.mem_cons_of_mem _ hm)]
      simp [h1, h3]
    rw [hasPairConflict, h2, ih (fun m hm => h m (List.mem_cons_of_mem _ hm))]
    rfl

/-- C5 counterexample: updating the mileage of a vehicle id that does not
exist does not fail with NotFound — the call succeeds silently and the
store is unchanged. -/
theorem C5_update_missing_notfound_counterexample :
    update_vehicle emptyState "2024-03-03T00:00:00" "00000001"
        none none none none (some 500) none
      = (Except.ok (), emptyState)
      ∧ (update_vehicle emptyState "2024-03-03T00:00:00" "00000001"
          none none none none (some 500) none).1
        ≠ Except.error DBError.notFound := by
  refine ⟨?_, ?_⟩ <;> decide

/-- C5 (amended): the repository update operations never fail with
NotFound on a nonexistent id: the UPDATE statement matches zero rows, the
call returns success, and the store is unchanged, whatever fields are
provided. -/
theorem C5_update_missing_id_silent (s : DBState) (now id : String)
    (vt vn vi : Option String) (vnum mil ls : Option Int)
    (sd : Option String) (ro bo : Option Int) (lvid laa : Option String)
    (idesc iloc : Option String) (icons : Option Bool)
    (iman imod iser : Option String)
    (hv : ∀ v ∈ s.vehicles, v.vehicle_id ≠ id)
    (hl : ∀ l ∈ s.locations, l.location_id ≠ id)
    (hi : ∀ it ∈ s.inventory, it.asset_id ≠ id) :
    update_vehicle s now id vt vn vi vnum mil ls = (Except.ok (), s)
      ∧ update_location s now id sd ro bo lvid laa = (Except.ok (), s)
      ∧ update_inventory s now id idesc iloc icons iman imod iser
          = (Except.ok (), s) := by
  refine ⟨?_, ?_, ?_⟩
  · simp only [update_vehicle]
    split
    · rfl
    · have hvall : s.vehicles.all (fun v =>
          v.vehicle_id != id || checkVehicleType (vt.getD v.vehicle_type)) = true := by
        rw [List.all_eq_true]
        intro v hvmem
        simp [hv v hvmem]
      have hmap : s.vehicles.map (fun v =>
          if v.vehicle_id == id then
            applyVehicleUpdate v now vt vn vi vnum mil ls
          else v) = s.vehicles :=
        map_ite_id _ _ _ (fun v hvmem => by simp [hv v hvmem])
      rw [if_pos hvall, hmap]
  · simp only [update_location]
    split
    · rfl
    · have htouch : s.locations.any (fun l => l.location_id == id) = false := by
        rw [List.any_eq_false]
        intro l hm
        simp [hl l hm]
      have hmap : s.locations.map (fun l =>
          if l.location_id == id then
            applyLocationUpdate l now sd ro bo lvid laa
          else l) = s.locations :=
        map_ite_id _ _ _ (fun l hm => by simp [hl l hm])
      rw [hmap, htouch, hasPairConflict_eq_false id s.locations hl]
      simp
  · simp only [update_inventory]
    split
    · rfl
    · have htouch : s.inventory.any (fun it => it.asset_id == id) = false := by
        rw [List.any_eq_false]
        intro it hm
        simp [hi it hm]
      have hmap : s.inventory.map (fun it =>
          if it.asset_id == id then
            applyInventoryUpdate it now idesc iloc icons iman imod iser
          else it) = s.inventory :=
        map_ite_id _ _ _ (fun it hm => by simp [hi it hm])
      rw [htouch, hmap]
      simp

/-- Witness for the amended C5 on the empty store. -/
theorem C5_update_missing_id_silent_witness :
    update_vehicle emptyState "2024-03-03T00:00:00" "00000009"
        (some "Trailer") none none none none none = (Except.ok (), emptyState)
      ∧ update_location emptyState "2024-03-03T00:00:00" "00000009"
          (some "Left") none none none none = (Except.ok (), emptyState)
      ∧ update_inventory emptyState "2024-03-03T00:00:00" "00000009"
          (some "Box") none none none none none = (Except.ok (), emptyState) :=
  C5_update_missing_id_silent emptyState "2024-03-03T00:00:00" "00000009"
    (some "Trailer") none none none none none
    (some "Left") none none none none
    (some "Box") none none none none none
    (by decide) (by decide) (by decide)

/-- C6: updating only the mileage of an existing vehicle rewrites exactly
that row, changing only `mileage` and `updated_at` — `vehicle_type`,
`vehicle_name`, `vin`, `vehicle_number`, `last_service` and `created_at`
keep their values, every other row keeps its value, and the other tables
are untouched — and an update providing no fields at all is a silent
no-op. -/
theorem C6_sparse_mileage_update (s : DBState) (now vid : String) (m : Int)
    (v : Vehicle)
    (hnd : (s.vehicles.map (fun w => w.vehicle_id)).Nodup)
    (hv : v ∈ s.vehicles) (hvid : v.vehicle_id = vid)
    (hty : checkVehicleType v.vehicle_type = true) :
    update_vehicle s now vid none none none none (some m) none
      = (Except.ok (),
        { s with vehicles := s.vehicles.map (fun w =>
            if w.vehicle_id == vid then { w with mileage := m, updated_at := now }
            else w) })
      ∧ update_vehicle s now vid none none none none none none
          = (Except.ok (), s) := by
  constructor
  · simp only [update_vehicle]
    split
    · next hcond => simp at hcond
    · rw [if_pos ?hall]
      case hall =>
        rw [List.all_eq_true]
        intro w hw
        by_cases hww : w.vehicle_id = vid
        · have hwv : w = v := List.inj_on_of_nodup_map hnd hw hv (by rw [hww, hvid])
          subst hwv
          simp [hty]
        · simp [hww]
      · have hfun : (fun w =>
            if w.vehicle_id == vid then
              applyVehicleUpdate w now none none none none (some m) none
            else w)
            = (fun w =>
              if w.vehicle_id == vid then { w with mileage := m, updated_at := now }
              else w) := by
          funext w
          by_cases hw : (w.vehicle_id == vid) = true <;>
            simp [hw, applyVehicleUpdate]
        rw [hfun]
  · rfl

/-- Witness for C6: setting mileage 500 on vehicle `"00000003"` of
`stateB`. -/
theorem C6_sparse_mileage_update_witness :
    update_vehicle stateB "2024-04-04T00:00:00" "00000003"
        none none none none (some 500) none
      = (Except.ok (),
        { stateB with vehicles := stateB.vehicles.map (fun w =>
            if w.vehicle_id == "00000003" then
              { w with mileage := 500, updated_at := "2024-04-04T00:00:00" }
            else w) })
      ∧ update_vehicle stateB "2024-04-04T00:00:00" "00000003"
          none none none none none none = (Except.ok (), stateB) :=
  C6_sparse_mileage_update stateB "2024-04-04T00:00:00" "00000003" 500 vehA
    (by decide) (by decide) (by decide) (by decide)

/-- C7 counterexample: with a negative limit neither filtered listing
returns an empty list — SQLite treats a negative LIMIT as unlimited, so
all matching rows are returned, by `list_inventory_filtered` and
`list_inventory_view_filtered` alike. -/
theorem C7_negative_limit_counterexample :
    (list_inventory_filtered stateC "" (-1) 0 "description" "ASC").1 ≠ []
      ∧ list_inventory_filtered stateC "" (-1) 0 "description" "ASC"
        = ([itemOil], 1)
      ∧ (list_inventory_view_filtered stateC [] "description" "ASC" (-1) 0).1 ≠ []
      ∧ list_inventory_view_filtered stateC [] "description" "ASC" (-1) 0
        = ([viewRowOil], 1) := by
  refine ⟨?_, ?_, ?_, ?_⟩ <;> decide

/-- C7 (amended): for both filtered listings — `list_inventory_filtered`
and `list_inventory_view_filtered` — a limit of 0 yields no rows, but a
negative limit is passed through to SQLite, which treats it as unlimited
and returns every matching row after the offset; in all cases
`total_count` equals the number of rows matching the filter. -/
theorem C7_limit_semantics (s : DBState) (search : String)
    (fs : List (String × String))
    (offSet : Int) (order_by order_dir : String) :
    ((list_inventory_filtered s search 0 offSet order_by order_dir).1 = []
      ∧ (list_inventory_filtered s search 0 offSet order_by order_dir).2
          = (invMatches s search).length)
      ∧ (∀ limit : Int, limit < 0 →
          (list_inventory_filtered s search limit offSet order_by order_dir).1.length
              = (invMatches s search).length - offSet.toNat
            ∧ (list_inventory_filtered s search limit offSet order_by order_dir).2
              = (invMatches s search).length)
      ∧ ((list_inventory_view_filtered s fs order_by order_dir 0 offSet).1 = []
        ∧ (list_inventory_view_filtered s fs order_by order_dir 0 offSet).2
            = (viewMatches s fs).length)
      ∧ (∀ limit : Int, limit < 0 →
          (list_inventory_view_filtered s fs order_by order_dir limit offSet).1.length
              = (viewMatches s fs).length - offSet.toNat
            ∧ (list_inventory_view_filtered s fs order_by order_dir limit offSet).2
              = (viewMatches s fs).length) := by
  have htotal : (if (search == "") = true then s.inventory.length
      else s.inventory.countP (fun it => searchMatch search it))
      = (invMatches s search).length := by
    by_cases hs : (search == "") = true <;>
      simp [invMatches, hs, List.countP_eq_length_filter]
  have hvtotal : (viewRows s).countP (fun r => viewFilterPred fs r)
      = (viewMatches s fs).length := by
    simp [viewMatches, List.countP_eq_length_filter]
  refine ⟨⟨?_, ?_⟩, ?_, ⟨?_, ?_⟩, ?_⟩
  · dsimp only [list_inventory_filtered, applyLimitOffset]
    rw [if_neg (by decide : ¬ (0 : Int) < 0)]
    simp
  · dsimp only [list_inventory_filtered]
    exact htotal
  · intro limit hlim
    constructor
    · dsimp only [list_inventory_filtered, applyLimitOffset]
      rw [if_pos hlim, List.length_drop, length_sqlSort]
    · dsimp only [list_inventory_filtered]
      exact htotal
  · dsimp only [list_inventory_view_filtered, applyLimitOffset]
    rw [if_neg (by decide : ¬ (0 : Int) < 0)]
    simp
  · dsimp only [list_inventory_view_filtered]
    exact hvtotal
  · intro limit hlim
    constructor
    · dsimp only [list_inventory_view_filtered, applyLimitOffset]
      rw [if_pos hlim, List.length_drop, length_sqlSort]
    · dsimp only [list_inventory_view_filtered]
      exact hvtotal

/-- Witness for the amended C7 on a store holding one inventory item,
exercising both listings. -/
theorem C7_limit_semantics_witness :
    ((list_inventory_filtered stateC "" 0 0 "description" "ASC").1 = []
      ∧ (list_inventory_filtered stateC "" 0 0 "description" "ASC").2
          = (invMatches stateC "").length)
      ∧ ((list_inventory_filtered stateC "" (-2) 0 "description" "ASC").1.length
            = (invMatches stateC "").length - (0 : Int).toNat
        ∧ (list_inventory_filtered stateC "" (-2) 0 "description" "ASC").2
            = (invMatches stateC "").length)
      ∧ ((list_inventory_view_filtered stateC [] "description" "ASC" 0 0).1 = []
        ∧ (list_inventory_view_filtered stateC [] "description" "ASC" 0 0).2
            = (viewMatches stateC []).length)
      ∧ ((list_inventory_view_filtered stateC [] "description" "ASC" (-2) 0).1.length
            = (viewMatches stateC []).length - (0 : Int).toNat
        ∧ (list_inventory_view_filtered stateC [] "description" "ASC" (-2) 0).2
            = (viewMatches stateC []).length) :=
  ⟨(C7_limit_semantics stateC "" [] 0 "description" "ASC").1,
   (C7_limit_semantics stateC "" [] 0 "description" "ASC").2.1 (-2) (by decide),
   (C7_limit_semantics stateC "" [] 0 "description" "ASC").2.2.1,
   (C7_limit_semantics stateC "" [] 0 "description" "ASC").2.2.2 (-2) (by decide)⟩

/-! Helper lemmas about the lexicographic order used for backup pruning. -/

theorem charListLe_total (as : List Char) : ∀ bs : List Char,
    charListLe as bs = true ∨ charListLe bs as = true := by
  induction as with
  | nil => intro bs; left; rfl
  | cons a as ih =>
    intro bs
    cases bs with
    | nil => right; rfl
    | cons b bs =>
      by_cases h1 : a.toNat < b.toNat
      · left
        simp [charListLe, h1]
      · by_cases h2 : b.toNat < a.toNat
        · right
          simp [charListLe, h2]
        · rcases ih bs with h | h
          · left
            simp [charListLe, h1, h2, h]
          · right
            simp [charListLe, h1, h2, h]

theorem charListLe_trans (as : List Char) : ∀ bs cs : List Char,
    charListLe as bs = true → charListLe bs cs = true → charListLe as cs = true := by
  induction as with
  | nil => intro bs cs _ _; rfl
  | cons a as ih =>
    intro bs cs h1 h2
    cases bs with
    | nil => simp [charListLe] at h1
    | cons b bs =>
      cases cs with
      | nil => simp [charListLe] at h2
      | cons c cs =>
        have hd1 : a.toNat < b.toNat ∨ (a.toNat = b.toNat ∧ charListLe as bs = true) := by
          by_cases hab : a.toNat < b.toNat
          · left; exact hab
          · by_cases hba : b.toNat < a.toNat
            · simp [charListLe, hab, hba] at h1
            · right
              exact ⟨by omega, by simpa [charListLe, hab, hba] using h1⟩
        have hd2 : b.toNat < c.toNat ∨ (b.toNat = c.toNat ∧ charListLe bs cs = true) := by
          by_cases hbc : b.toNat < c.toNat
          · left; exact hbc
          · by_cases hcb : c.toNat < b.toNat
            · simp [charListLe, hbc, hcb] at h2
            · right
              exact ⟨by omega, by simpa [charListLe, hbc, hcb] using h2⟩
        rcases hd1 with hab | ⟨hab, hr1⟩ <;> rcases hd2 with hbc | ⟨hbc, hr2⟩
        · simp [charListLe, show a.toNat < c.toNat by omega]
        · simp [charListLe, show a.toNat < c.toNat by omega]
        · simp [charListLe, show a.toNat < c.toNat by omega]
        · simp [charListLe, show ¬ a.toNat < c.toNat by omega,
            show ¬ c.toNat < a.toNat by omega]
          exact ih bs cs hr1 hr2

theorem strLe_total (a b : String) : strLe a b = true ∨ strLe b a = true :=
  charListLe_total a.data b.data

theorem strLe_trans (a b c : String) :
    strLe a b = true → strLe b c = true → strLe a c = true :=
  charListLe_trans a.data b.data c.data

theorem orderedIns_pairwise (le : α → α → Bool)
    (htot : ∀ a b, le a b = true ∨ le b a = true)
    (htrans : ∀ a b c, le a b = true → le b c = true → le a c = true)
    (a : α) (l : List α)
    (hp : l.Pairwise (fun x y => le x y = true)) :
    (orderedIns le a l).Pairwise (fun x y => le x y = true) := by
  induction l with
  | nil => simp [orderedIns]
  | cons b l ih =>
    rw [orderedIns]
    rcases List.pairwise_cons.mp hp with ⟨hb, hl⟩
    by_cases hab : le a b = true
    · rw [if_pos hab]
      refine List.pairwise_cons.mpr ⟨?_, hp⟩
      intro y hy
      rcases List.mem_cons.mp hy with rfl | hy
      · exact hab
      · exact htrans a b y hab (hb y hy)
    · rw [if_neg hab]
      have hba : le b a = true := (htot a b).resolve_left hab
      refine List.pairwise_cons.mpr ⟨?_, ih hl⟩
      intro y hy
      have hy' : y ∈ a :: l := (orderedIns_perm le a l).mem_iff.mp hy
      rcases List.mem_cons.mp hy' with rfl | hy''
      · exact hba
      · exact hb y hy''

theorem sqlSort_pairwise (le : α → α → Bool)
    (htot : ∀ a b, le a b = true ∨ le b a = true)
    (htrans : ∀ a b c, le a b = true → le b c = true → le a c = true)
    (l : List α) :
    (sqlSort le l).Pairwise (fun x y => le x y = true) := by
  induction l with
  | nil => exact List.Pairwise.nil
  | cons a l ih => exact orderedIns_pairwise le htot htrans a _ ih

/-- C8 counterexample: with retention 3 and five pre-existing backups plus
one new one (six files), `prune_backups` removes the three oldest files,
not two: six files minus a retention of three leaves three to delete. -/
theorem C8_prune_counterexample :
    (prune_backups dirSix 3).1.length = 3
      ∧ (prune_backups dirSix 3).1.length ≠ 2
      ∧ prune_backups dirSix 3
        = (["inventory_20240101_000000.db", "inventory_20240102_000000.db",
            "inventory_20240103_000000.db"],
           ["inventory_20240105_000000.db", "inventory_20240104_000000.db",
            "inventory_20240106_000000.db"]) := by
  refine ⟨?_, ?_, ?_⟩ <;> decide

/-- C8 (amended): `prune_backups` with retention R removes exactly the
oldest backup files beyond the R newest (by the filename order, which the
embedded timestamp makes chronological) and returns them: with R ≤ 0, or
with at most R backup files present, nothing is removed; otherwise the
removed list is the ascending-sorted backup list minus its last R entries,
every removed file sorts no later than every kept backup, and the
directory afterwards holds exactly the files not removed.  In particular,
with retention 3 and five pre-existing files plus one new backup, the
three oldest files are removed and the 3 newest remain. -/
theorem C8_prune_retention (dir : List String) (R : Int)
    (backups : List String)
    (hb : backups = sqlSort strLe (dir.filter (fun f => isBackupFile f))) :
    (R ≤ 0 → prune_backups dir R = ([], dir))
      ∧ ((backups.length : Int) ≤ R → prune_backups dir R = ([], dir))
      ∧ (0 < R → (R : Int) < backups.length →
          (prune_backups dir R).1 = backups.take (backups.length - R.toNat)
            ∧ (prune_backups dir R).1 ++ backups.drop (backups.length - R.toNat)
                = backups
            ∧ (prune_backups dir R).1.length = backups.length - R.toNat
            ∧ (∀ f ∈ (prune_backups dir R).1,
                ∀ k ∈ backups.drop (backups.length - R.toNat), strLe f k = true)
            ∧ (∀ f, f ∈ (prune_backups dir R).2
                ↔ f ∈ dir ∧ f ∉ (prune_backups dir R).1)) := by
  subst hb
  refine ⟨?_, ?_, ?_⟩
  · intro hR
    dsimp only [prune_backups]
    rw [if_pos (Or.inl hR)]
  · intro hlen
    dsimp only [prune_backups]
    rw [if_pos (Or.inr hlen)]
  · intro hR hn
    have hcond : ¬ (R ≤ 0
        ∨ ((sqlSort strLe (dir.filter (fun f => isBackupFile f))).length : Int) ≤ R) := by
      push_neg
      exact ⟨hR, hn⟩
    have hres : prune_backups dir R
        = ((sqlSort strLe (dir.filter (fun f => isBackupFile f))).take
            ((sqlSort strLe (dir.filter (fun f => isBackupFile f))).length - R.toNat),
           dir.filter (fun f =>
            !((sqlSort strLe (dir.filter (fun f => isBackupFile f))).take
                ((sqlSort strLe (dir.filter (fun f => isBackupFile f))).length - R.toNat)).contains f)) := by
      dsimp only [prune_backups]
      rw [if_neg hcond]
    rw [hres]
    refine ⟨rfl, List.take_append_drop _ _, ?_, ?_, ?_⟩
    · rw [List.length_take]
      omega
    · have hpw := sqlSort_pairwise strLe strLe_total strLe_trans
        (dir.filter (fun f => isBackupFile f))
      have hsplit := List.pairwise_append.mp
        ((List.take_append_drop ((sqlSort strLe (dir.filter (fun f => isBackupFile f))).length - R.toNat)
          (sqlSort strLe (dir.filter (fun f => isBackupFile f)))).symm ▸ hpw)
      exact fun f hf k hk => hsplit.2.2 f hf k hk
    · intro f
      constructor
      · intro hf
        have hm := List.mem_filter.mp hf
        refine ⟨hm.1, ?_⟩
        simpa using hm.2
      · intro hf
        apply List.mem_filter.mpr
        refine ⟨hf.1, ?_⟩
        simpa using hf.2

/-- Witness for the amended C8 on the six-file directory with
retention 3. -/
theorem C8_prune_retention_witness :
    (prune_backups dirSix 3).1 = sortedSix.take (sortedSix.length - (3 : Int).toNat)
      ∧ (prune_backups dirSix 3).1 ++ sortedSix.drop (sortedSix.length - (3 : Int).toNat)
          = sortedSix
      ∧ (prune_backups dirSix 3).1.length = sortedSix.length - (3 : Int).toNat
      ∧ (∀ f ∈ (prune_backups dirSix 3).1,
          ∀ k ∈ sortedSix.drop (sortedSix.length - (3 : Int).toNat), strLe f k = true)
      ∧ (∀ f, f ∈ (prune_backups dirSix 3).2
          ↔ f ∈ dirSix ∧ f ∉ (prune_backups dirSix 3).1) :=
  (C8_prune_retention dirSix 3 sortedSix (by decide)).2.2 (by decide) (by decide)

/-- The state after `update_vehicle` is either untouched or the rewrite of
the matching rows. -/
theorem update_vehicle_state (s : DBState) (now uid : String)
    (uvt uvn uvi : Option String) (uvnum umil uls : Option Int) :
    (update_vehicle s now uid uvt uvn uvi uvnum umil uls).2 = s
      ∨ (update_vehicle s now uid uvt uvn uvi uvnum umil uls).2
        = { s with vehicles := s.vehicles.map (fun v =>
            if v.vehicle_id == uid then
              applyVehicleUpdate v now uvt uvn uvi uvnum umil uls
            else v) } := by
  dsimp only [update_vehicle]
  split
  · exact Or.inl rfl
  · split
    · exact Or.inr rfl
    · exact Or.inl rfl

/-- The state after `update_location` is either untouched or the rewrite
of the matching rows. -/
theorem update_location_state (s : DBState) (now lid : String)
    (sd : Option String) (ro bo : Option Int) (lvid laa : Option String) :
    (update_location s now lid sd ro bo lvid laa).2 = s
      ∨ (update_location s now lid sd ro bo lvid laa).2
        = { s with locations := s.locations.map (fun l =>
            if l.location_id == lid then
              applyLocationUpdate l now sd ro bo lvid laa
            else l) } := by
  dsimp only [update_location]
  split
  · exact Or.inl rfl
  · split
    · exact Or.inr rfl
    · exact Or.inl rfl

/-- The state after `update_inventory` is either untouched or the rewrite
of the matching rows. -/
theorem update_inventory_state (s : DBState) (now aid : String)
    (idesc iloc : Option String) (icons : Option Bool)
    (iman imod iser : Option String) :
    (update_inventory s now aid idesc iloc icons iman imod iser).2 = s
      ∨ (update_inventory s now aid idesc iloc icons iman imod iser).2
        = { s with inventory := s.inventory.map (fun it =>
            if it.asset_id == aid then
              applyInventoryUpdate it now idesc iloc icons iman imod iser
            else it) } := by
  dsimp only [update_inventory]
  split
  · exact Or.inl rfl
  · split
    · exact Or.inr rfl
    · exact Or.inl rfl

/-- C9 counterexample: `record_audit` stores a caller-supplied
`audited_at` verbatim instead of the repository clock, contradicting the
claim that `audited_at` is always the repository current time. -/
theorem C9_caller_audited_at_counterexample :
    record_audit stateA "2024-05-05T05:05:05" "00000002" "audit"
        none none none none (some "2020-01-01T00:00:00")
      = (Except.ok 1, stateAuditBack)
      ∧ auditBackdated.audited_at = "2020-01-01T00:00:00"
      ∧ auditBackdated.audited_at ≠ "2024-05-05T05:05:05" := by
  refine ⟨?_, ?_, ?_⟩ <;> decide

/-- C9 (amended): `created_at` and `updated_at` are always assigned by the
repository layer — every successful create stamps both with the repository
clock, and every row rewritten by any of the three update operations
carries the repository clock in `updated_at` — but `record_audit` takes
the repository clock only when the caller supplies no `audited_at` (`None`
or the empty string, both falsy under the Python `or`); a caller-supplied
non-empty `audited_at` is stored verbatim. -/
theorem C9_repository_timestamps (s : DBState) (now : String) (cands : List Nat)
    (vt vn vi : String) (vnum mil ls : Int)
    (sd : String) (ro bo : Int) (lvid : Option String)
    (idesc iloc : String) (icons : Bool) (iman imod iser : Option String)
    (uid : String) (uvt uvn uvi : Option String) (uvnum umil uls : Option Int)
    (ulid : String) (usd : Option String) (uro ubo : Option Int)
    (ulvid ulaa : Option String)
    (uaid : String) (uidesc uiloc : Option String) (uicons : Option Bool)
    (uiman uimod uiser : Option String)
    (aid act : String) (afrom ato anotes auser : Option String) (ts : String) :
    (∀ v s', create_vehicle s now cands vt vn vi vnum mil ls
          = some (Except.ok v, s') →
        v.created_at = now ∧ v.updated_at = now)
      ∧ (∀ l s', create_location s now cands sd ro bo lvid
            = some (Except.ok l, s') →
          l.created_at = now ∧ l.updated_at = now)
      ∧ (∀ it s', create_inventory s now cands idesc iloc icons iman imod iser
            = some (Except.ok it, s') →
          it.created_at = now ∧ it.updated_at = now)
      ∧ (∀ v' ∈ (update_vehicle s now uid uvt uvn uvi uvnum umil uls).2.vehicles,
          v' ∈ s.vehicles ∨ v'.updated_at = now)
      ∧ (∀ l' ∈ (update_location s now ulid usd uro ubo ulvid ulaa).2.locations,
          l' ∈ s.locations ∨ l'.updated_at = now)
      ∧ (∀ it' ∈ (update_inventory s now uaid uidesc uiloc uicons
              uiman uimod uiser).2.inventory,
          it' ∈ s.inventory ∨ it'.updated_at = now)
      ∧ (∀ k s', record_audit s now aid act afrom ato anotes auser none
            = (Except.ok k, s') →
          ∃ e, s'.audits = s.audits ++ [e] ∧ e.audited_at = now)
      ∧ (∀ k s', record_audit s now aid act afrom ato anotes auser (some "")
            = (Except.ok k, s') →
          ∃ e, s'.audits = s.audits ++ [e] ∧ e.audited_at = now)
      ∧ (ts ≠ "" → ∀ k s', record_audit s now aid act afrom ato anotes auser (some ts)
            = (Except.ok k, s') →
          ∃ e, s'.audits = s.audits ++ [e] ∧ e.audited_at = ts) := by
  refine ⟨?_, ?_, ?_, ?_, ?_, ?_, ?_, ?_, ?_⟩
  · intro v s' h
    dsimp only [create_vehicle] at h
    cases halloc : generate_global_id s.globalIds cands with
    | none => rw [halloc] at h; exact absurd h (by simp)
    | some p =>
      obtain ⟨i, g1⟩ := p
      rw [halloc] at h
      dsimp only at h
      split at h
      · simp only [Option.some.injEq, Prod.mk.injEq, Except.ok.injEq] at h
        obtain ⟨hv, -⟩ := h
        subst hv
        exact ⟨rfl, rfl⟩
      · simp at h
  · intro l s' h
    dsimp only [create_location] at h
    cases halloc : generate_global_id s.globalIds cands with
    | none => rw [halloc] at h; exact absurd h (by simp)
    | some p =>
      obtain ⟨i, g1⟩ := p
      rw [halloc] at h
      dsimp only at h
      split at h
      · simp only [Option.some.injEq, Prod.mk.injEq, Except.ok.injEq] at h
        obtain ⟨hl, -⟩ := h
        subst hl
        exact ⟨rfl, rfl⟩
      · simp at h
  · intro it s' h
    dsimp only [create_inventory] at h
    cases halloc : generate_global_id s.globalIds cands with
    | none => rw [halloc] at h; exact absurd h (by simp)
    | some p =>
      obtain ⟨i, g1⟩ := p
      rw [halloc] at h
      dsimp only at h
      split at h
      · simp only [Option.some.injEq, Prod.mk.injEq, Except.ok.injEq] at h
        obtain ⟨hit, -⟩ := h
        subst hit
        exact ⟨rfl, rfl⟩
      · simp at h
  · intro v' hv'
    rcases update_vehicle_state s now uid uvt uvn uvi uvnum umil uls with h | h
    · rw [h] at hv'
      exact Or.inl hv'
    · rw [h] at hv'
      obtain ⟨w, hw, heq⟩ := List.mem_map.mp hv'
      by_cases hm : (w.vehicle_id == uid) = true
      · rw [if_pos hm] at heq
        right
        rw [← heq]
        rfl
      · rw [if_neg hm] at heq
        exact Or.inl (heq ▸ hw)
  · intro l' hl'
    rcases update_location_state s now ulid usd uro ubo ulvid ulaa with h | h
    · rw [h] at hl'
      exact Or.inl hl'
    · rw [h] at hl'
      obtain ⟨w, hw, heq⟩ := List.mem_map.mp hl'
      by_cases hm : (w.location_id == ulid) = true
      · rw [if_pos hm] at heq
        right
        rw [← heq]
        rfl
      · rw [if_neg hm] at heq
        exact Or.inl (heq ▸ hw)
  · intro it' hit'
    rcases update_inventory_state s now uaid uidesc uiloc uicons uiman uimod uiser with h | h
    · rw [h] at hit'
      exact Or.inl hit'
    · rw [h] at hit'
      obtain ⟨w, hw, heq⟩ := List.mem_map.mp hit'
      by_cases hm : (w.asset_id == uaid) = true
      · rw [if_pos hm] at heq
        right
        rw [← heq]
        rfl
      · rw [if_neg hm] at heq
        exact Or.inl (heq ▸ hw)
  · intro k s' h
    dsimp only [record_audit] at h
    split at h
    · simp only [Prod.mk.injEq] at h
      exact ⟨_, by rw [← h.2], rfl⟩
    · simp at h
  · intro k s' h
    dsimp only [record_audit] at h
    split at h
    · simp only [Prod.mk.injEq] at h
      exact ⟨_, by rw [← h.2], rfl⟩
    · simp at h
  · intro hts k s' h
    dsimp only [record_audit] at h
    split at h
    · simp only [Prod.mk.injEq] at h
      refine ⟨_, by rw [← h.2], ?_⟩
      have hne : (ts == "") = false := beq_eq_false_iff_ne.mpr hts
      simp [hne]
    · simp at h

/-- Witness for the amended C9 at concrete create, update and audit
calls. -/
theorem C9_repository_timestamps_witness :
    (vehNine.created_at = "2024-05-05T05:05:05"
        ∧ vehNine.updated_at = "2024-05-05T05:05:05")
      ∧ (locNine.created_at = "2024-05-05T05:05:05"
        ∧ locNine.updated_at = "2024-05-05T05:05:05")
      ∧ (itemNine.created_at = "2024-05-05T05:05:05"
        ∧ itemNine.updated_at = "2024-05-05T05:05:05")
      ∧ (∀ v' ∈ (update_vehicle stateA "2024-05-05T05:05:05" "00000001"
            (some "Trailer") none none none none none).2.vehicles,
          v' ∈ stateA.vehicles ∨ v'.updated_at = "2024-05-05T05:05:05")
      ∧ (∀ l' ∈ (update_location stateA "2024-05-05T05:05:05" "00000001"
            (some "Top") none none none none).2.locations,
          l' ∈ stateA.locations ∨ l'.updated_at = "2024-05-05T05:05:05")
      ∧ (∀ it' ∈ (update_inventory stateA "2024-05-05T05:05:05" "00000002"
            (some "Spanner") none none none none none).2.inventory,
          it' ∈ stateA.inventory ∨ it'.updated_at = "2024-05-05T05:05:05")
      ∧ (∃ e, stateAuditNow.audits = stateA.audits ++ [e]
          ∧ e.audited_at = "2024-05-05T05:05:05")
      ∧ (∃ e, stateAuditNow.audits = stateA.audits ++ [e]
          ∧ e.audited_at = "2024-05-05T05:05:05")
      ∧ (∃ e, stateAuditBack.audits = stateA.audits ++ [e]
          ∧ e.audited_at = "2020-01-01T00:00:00") := by
  have h := C9_repository_timestamps stateA "2024-05-05T05:05:05" [9]
    "Truck" "T" "V" 1 0 0
    "Left" 2 2 none
    "Box" "00000001" false none none none
    "00000001" (some "Trailer") none none none none none
    "00000001" (some "Top") none none none none
    "00000002" (some "Spanner") none none none none none
    "00000002" "audit" none none none none "2020-01-01T00:00:00"
  exact ⟨h.1 vehNine stateVehNine (by decide),
    h.2.1 locNine stateLocNine (by decide),
    h.2.2.1 itemNine stateItemNine (by decide),
    h.2.2.2.1,
    h.2.2.2.2.1,
    h.2.2.2.2.2.1,
    h.2.2.2.2.2.2.1 1 stateAuditNow (by decide),
    h.2.2.2.2.2.2.2.1 1 stateAuditNow (by decide),
    h.2.2.2.2.2.2.2.2 (by decide) 1 stateAuditBack (by decide)⟩

/-- C10: the sparse updates cannot clear an optional field: after any
`update_location` call, every location row corresponds to a prior row with
the same `location_id`; a `None` argument leaves `vehicle_id` and
`last_audited_at` exactly as stored, and a non-null stored value can never
become NULL.  The same holds for `update_inventory` and the optional
`manufacturer`, `model` and `serial_number` fields. -/
theorem C10_update_cannot_clear_optionals (s : DBState) (now : String)
    (lid : String) (sd : Option String) (ro bo : Option Int)
    (lvid laa : Option String)
    (aid : String) (idesc iloc : Option String) (icons : Option Bool)
    (iman imod iser : Option String) :
    (∀ l' ∈ (update_location s now lid sd ro bo lvid laa).2.locations,
        ∃ l ∈ s.locations, l.location_id = l'.location_id
          ∧ (lvid = none → l'.vehicle_id = l.vehicle_id)
          ∧ (laa = none → l'.last_audited_at = l.last_audited_at)
          ∧ (l.vehicle_id ≠ none → l'.vehicle_id ≠ none)
          ∧ (l.last_audited_at ≠ none → l'.last_audited_at ≠ none))
      ∧ (∀ it' ∈ (update_inventory s now aid idesc iloc icons iman imod iser).2.inventory,
          ∃ it ∈ s.inventory, it.asset_id = it'.asset_id
            ∧ (iman = none → it'.manufacturer = it.manufacturer)
            ∧ (imod = none → it'.model = it.model)
            ∧ (iser = none → it'.serial_number = it.serial_number)
            ∧ (it.manufacturer ≠ none → it'.manufacturer ≠ none)
            ∧ (it.model ≠ none → it'.model ≠ none)
            ∧ (it.serial_number ≠ none → it'.serial_number ≠ none)) := by
  constructor
  · intro l' hl'
    rcases update_location_state s now lid sd ro bo lvid laa with h | h
    · rw [h] at hl'
      exact ⟨l', hl', rfl, fun _ => rfl, fun _ => rfl, fun hx => hx, fun hx => hx⟩
    · rw [h] at hl'
      obtain ⟨l, hl, heq⟩ := List.mem_map.mp hl'
      by_cases hm : (l.location_id == lid) = true
      · rw [if_pos hm] at heq
        subst heq
        refine ⟨l, hl, rfl, ?_, ?_, ?_, ?_⟩
        · intro hn
          subst hn
          rfl
        · intro hn
          subst hn
          rfl
        · intro hvne
          cases lvid with
          | none => exact hvne
          | some v => simp [applyLocationUpdate]
        · intro hane
          cases laa with
          | none => exact hane
          | some t => simp [applyLocationUpdate]
      · rw [if_neg hm] at heq
        subst heq
        exact ⟨l, hl, rfl, fun _ => rfl, fun _ => rfl, fun hx => hx, fun hx => hx⟩
  · intro it' hit'
    rcases update_inventory_state s now aid idesc iloc icons iman imod iser with h | h
    · rw [h] at hit'
      exact ⟨it', hit', rfl, fun _ => rfl, fun _ => rfl, fun _ => rfl,
        fun hx => hx, fun hx => hx, fun hx => hx⟩
    · rw [h] at hit'
      obtain ⟨it, hit, heq⟩ := List.mem_map.mp hit'
      by_cases hm : (it.asset_id == aid) = true
      · rw [if_pos hm] at heq
        subst heq
        refine ⟨it, hit, rfl, ?_, ?_, ?_, ?_, ?_, ?_⟩
        · intro hn
          subst hn
          rfl
        · intro hn
          subst hn
          rfl
        · intro hn
          subst hn
          rfl
        · intro hvne
          cases iman with
          | none => exact hvne
          | some v => simp [applyInventoryUpdate]
        · intro hvne
          cases imod with
          | none => exact hvne
          | some v => simp [applyInventoryUpdate]
        · intro hvne
          cases iser with
          | none => exact hvne
          | some v => simp [applyInventoryUpdate]
      · rw [if_neg hm] at heq
        subst heq
        exact ⟨it, hit, rfl, fun _ => rfl, fun _ => rfl, fun _ => rfl,
          fun hx => hx, fun hx => hx, fun hx => hx⟩

/-- Witness for C10: an update that provides only `side` (resp. only
`description`) on a row whose optional fields are populated. -/
theorem C10_update_cannot_clear_optionals_witness :
    (∀ l' ∈ (update_location stateB "2024-06-06T00:00:00" "00000004"
          (some "Top") none none none none).2.locations,
        ∃ l ∈ stateB.locations, l.location_id = l'.location_id
          ∧ ((none : Option String) = none → l'.vehicle_id = l.vehicle_id)
          ∧ ((none : Option String) = none → l'.last_audited_at = l.last_audited_at)
          ∧ (l.vehicle_id ≠ none → l'.vehicle_id ≠ none)
          ∧ (l.last_audited_at ≠ none → l'.last_audited_at ≠ none))
      ∧ (∀ it' ∈ (update_inventory stateC "2024-06-06T00:00:00" "00000008"
            (some "Filter") none none none none none).2.inventory,
          ∃ it ∈ stateC.inventory, it.asset_id = it'.asset_id
            ∧ ((none : Option String) = none → it'.manufacturer = it.manufacturer)
            ∧ ((none : Option String) = none → it'.model = it.model)
            ∧ ((none : Option String) = none → it'.serial_number = it.serial_number)
            ∧ (it.manufacturer ≠ none → it'.manufacturer ≠ none)
            ∧ (it.model ≠ none → it'.model ≠ none)
            ∧ (it.serial_number ≠ none → it'.serial_number ≠ none)) :=
  ⟨(C10_update_cannot_clear_optionals stateB "2024-06-06T00:00:00" "00000004"
      (some "Top") none none none none "00000004" none none none none none none).1,
   (C10_update_cannot_clear_optionals stateC "2024-06-06T00:00:00" "00000004"
      none none none none none "00000008" (some "Filter") none none none none none).2⟩

end InventoryManager
